import Mathlib

/-
Verification of the Windows ConPTY subsystem (src/pty/win/conpty.rs)
against its natural-language specification.

The Rust code is shallowly embedded: every OS call (CreatePipe,
CreatePseudoConsole, ResizePseudoConsole, GetExitCodeProcess,
TerminateProcess, InitializeProcThreadAttributeList,
UpdateProcThreadAttribute, CreateProcessW, DuplicateHandle) is an
external effect, so its outcome is passed in explicitly as an oracle
value, and the embedded function computes exactly what the Rust code
computes from that outcome.  Machine integers carry no arithmetic in
this file (they are only stored and compared), so u16/DWORD values are
modelled as Nat and HRESULT/OS error codes as Int.  Wide-character
buffers are modelled as lists of code units.
-/

set_option linter.unusedVariables false

namespace ConPty

/-- The HRESULT success code `S_OK`. -/
def S_OK : Int := 0

/-- The `STILL_ACTIVE` sentinel status (259) returned by
`GetExitCodeProcess` for a process that has not exited. -/
def STILL_ACTIVE : Nat := 259

/-- The `EXTENDED_STARTUPINFO_PRESENT` process-creation flag. -/
def EXTENDED_STARTUPINFO_PRESENT : Nat := 0x00080000

/-- The attribute id used by `ProcThreadAttributeList.set_pty`. -/
def PROC_THREAD_ATTRIBUTE_PSEUDOCONSOLE : Nat := 0x00020016

/-- Reinterpretation of a `u16` value as an `i16`, as performed by the
Rust cast `num_cols as i16` when building a `COORD`. -/
def i16OfU16 (v : Nat) : Int :=
  if v < 32768 then (v : Int) else (v : Int) - 65536

/-- The `COORD` structure passed to the pseudo-console calls. -/
structure COORD where
  X : Int
  Y : Int
  deriving DecidableEq

/-- Modelled from the spec: `OwnedHandle` (src/pty/win/ownedhandle.rs is
not under src/) is the exclusive-ownership wrapper around one raw
`HANDLE`; only the raw handle value matters for this development. -/
structure OwnedHandle where
  handle : Nat
  deriving DecidableEq

/-- Errors produced by the fallible operations of conpty.rs.  The Rust
code uses dynamically typed `failure::Error` values built by `bail!` /
`ensure!`; each distinct formatting site becomes one constructor here,
carrying the data interpolated into the message. -/
inductive CtError where
  | createPipeFailed (osError : Int)
  | createPseudoConsoleFailed (hresult : Int)
  | resizePseudoConsoleFailed (x y : Int) (hresult : Int)
  | attrListInitFailed (osError : Int)
  | updateAttrFailed (osError : Int)
  | cmdlineFailed
  | createProcessFailed (cmdline : List Nat) (osError : Int)
  | tryCloneFailed (osError : Int)
  deriving DecidableEq

/-- `ExitStatus` wraps the raw `DWORD` status of an exited process. -/
structure ExitStatus where
  status : Nat
  deriving DecidableEq

/-- `Child` owns the spawned process handle. -/
structure Child where
  proc : OwnedHandle
  deriving DecidableEq

/-- Outcome of one `GetExitCodeProcess` OS call: either the call
succeeds and reports a status `DWORD`, or the call itself fails with an
OS error code. -/
inductive ExitCodeQuery where
  | ok (status : Nat)
  | fail (osError : Int)
  deriving DecidableEq

/-- `Child::try_wait` (conpty.rs lines 196-208).  `q` is the outcome of
the `GetExitCodeProcess` call made on `child.proc.handle`. -/
def Child.try_wait (child : Child) (q : ExitCodeQuery) :
    Except Int (Option ExitStatus) :=
  match q with
  | .ok status =>
      if status = STILL_ACTIVE then .ok none else .ok (some ⟨status⟩)
  | .fail _ => .ok none

/-- Result of `Child::wait`: the returned value together with whether
the blocking `WaitForSingleObject` call was reached. -/
structure WaitOutcome where
  result : Except Int ExitStatus
  blocked : Bool

/-- `Child::wait` (conpty.rs lines 217-231).  `q1` is the outcome of the
status query made by the initial `try_wait`; `q2` is the outcome of the
final status query made after `WaitForSingleObject` returns. -/
def Child.wait (child : Child) (q1 q2 : ExitCodeQuery) : WaitOutcome :=
  match child.try_wait q1 with
  | .ok (some status) => ⟨.ok status, false⟩
  | _ =>
      match q2 with
      | .ok status => ⟨.ok ⟨status⟩, true⟩
      | .fail e => ⟨.error e, true⟩

/-- Observable state of the spawned OS process. -/
inductive ProcState where
  | running
  | exited (code : Nat)
  deriving DecidableEq

/-- Model of the OS semantics of `GetExitCodeProcess` when the call
itself succeeds: it reports `STILL_ACTIVE` while the process runs and
the exit code once it has exited. -/
def GetExitCodeProcess (p : ProcState) : ExitCodeQuery :=
  match p with
  | .running => .ok STILL_ACTIVE
  | .exited code => .ok code

/-- Model of the OS semantics of a successful `TerminateProcess _ code`:
a running process becomes exited with that code; the exit code of an
already exited process is unchanged. -/
def TerminateProcess (p : ProcState) (code : Nat) : ProcState :=
  match p with
  | .running => .exited code
  | .exited c => .exited c

/-- `Child::kill` (conpty.rs lines 210-215): `TerminateProcess(handle, 1)`
(its return value is ignored by the code), then `self.wait()`.  After
the termination the process state is stable, so both status queries made
inside `wait` observe the post-termination state. -/
def Child.kill (child : Child) (p : ProcState) : WaitOutcome × ProcState :=
  let p2 := TerminateProcess p 1
  (child.wait (GetExitCodeProcess p2) (GetExitCodeProcess p2), p2)

/-- Modelled from the spec: `winsize` comes from `super` (the win
module root, not under src/); it mirrors the unix winsize struct with
exactly the four u16 fields conpty.rs reads and writes. -/
structure winsize where
  ws_row : Nat
  ws_col : Nat
  ws_xpixel : Nat
  ws_ypixel : Nat
  deriving DecidableEq

/-- `PsuedoCon` (sic) wraps the raw pseudo-console handle. -/
structure PsuedoCon where
  con : Nat
  deriving DecidableEq

/-- `PsuedoCon::new` (conpty.rs lines 270-280).  `osResult` is the
`(HRESULT, written handle)` outcome of the `CreatePseudoConsole` call;
the constructor succeeds exactly when the HRESULT is `S_OK`. -/
def PsuedoCon.new (size : COORD) (input output : OwnedHandle)
    (osResult : Int × Nat) : Except CtError PsuedoCon :=
  if osResult.1 = S_OK then .ok ⟨osResult.2⟩
  else .error (.createPseudoConsoleFailed osResult.1)

/-- `PsuedoCon::resize` (conpty.rs lines 281-291).  `osResult` is the
HRESULT of the `ResizePseudoConsole` call. -/
def PsuedoCon.resize (pc : PsuedoCon) (osResult : Int) (size : COORD) :
    Except CtError Unit :=
  if osResult = S_OK then .ok ()
  else .error (.resizePseudoConsoleFailed size.X size.Y osResult)

/-- `Inner`: the shared PTY state behind the master/slave pair. -/
structure Inner where
  con : PsuedoCon
  readable : OwnedHandle
  writable : OwnedHandle
  size : winsize
  deriving DecidableEq

/-- `Inner::resize` (conpty.rs lines 301-321): first resize the
pseudo-console (X is the column count cast to i16, Y the row count),
and only on success overwrite the stored size.  The Rust method mutates
`self`; here the updated `Inner` is returned next to the result, and on
failure the input `Inner` is returned unchanged. -/
def Inner.resize (i : Inner) (osResize : Int)
    (num_rows num_cols pixel_width pixel_height : Nat) :
    Except CtError Unit × Inner :=
  match i.con.resize osResize ⟨i16OfU16 num_cols, i16OfU16 num_rows⟩ with
  | .error e => (.error e, i)
  | .ok () =>
      (.ok (), { i with
        size := ⟨num_rows, num_cols, pixel_width, pixel_height⟩ })

/-- `MasterPty` holds `Arc<Mutex<Inner>>`; the lock-protected shared
cell is modelled by passing the `Inner` state explicitly, one locked
operation at a time. -/
structure MasterPty where
  inner : Inner
  deriving DecidableEq

/-- `SlavePty` references the same shared `Inner`. -/
structure SlavePty where
  inner : Inner
  deriving DecidableEq

/-- `MasterPty::resize` (conpty.rs lines 332-342): lock, delegate to
`Inner::resize`, unlock.  The whole update happens under one lock
acquisition, which the sequential model renders as one atomic state
transition. -/
def MasterPty.resize (m : MasterPty) (osResize : Int)
    (num_rows num_cols pixel_width pixel_height : Nat) :
    Except CtError Unit × MasterPty :=
  match m.inner.resize osResize num_rows num_cols pixel_width pixel_height with
  | (res, i2) => (res, ⟨i2⟩)

/-- `MasterPty::get_size` (conpty.rs lines 344-347): lock and return a
clone of the stored size. -/
def MasterPty.get_size (m : MasterPty) : Except CtError winsize :=
  .ok m.inner.size

/-- `pipe()` (conpty.rs lines 376-383).  `osResult` is the outcome of
the `CreatePipe` call: the `(read, write)` handle pair it wrote, or the
OS error code on failure. -/
def pipe (osResult : Except Int (Nat × Nat)) :
    Except CtError (OwnedHandle × OwnedHandle) :=
  match osResult with
  | .error e => .error (.createPipeFailed e)
  | .ok (rd, wr) => .ok (⟨rd⟩, ⟨wr⟩)

/-- Outcomes of the three OS calls made by `openpty`: the two
`CreatePipe` calls and the `CreatePseudoConsole` call. -/
structure OpenptyOracle where
  stdinPipe : Except Int (Nat × Nat)
  stdoutPipe : Except Int (Nat × Nat)
  createConsole : Int × Nat

/-- `openpty` (conpty.rs lines 385-424): create the stdin pipe, create
the stdout pipe, create the pseudo-console over the stdin read end and
stdout write end, store the remaining ends plus the requested size in a
shared `Inner`, and hand back a master and a slave over that `Inner`. -/
def openpty (o : OpenptyOracle)
    (num_rows num_cols pixel_width pixel_height : Nat) :
    Except CtError (MasterPty × SlavePty) :=
  match pipe o.stdinPipe with
  | .error e => .error e
  | .ok (stdin_read, stdin_write) =>
    match pipe o.stdoutPipe with
    | .error e => .error e
    | .ok (stdout_read, stdout_write) =>
      match PsuedoCon.new ⟨i16OfU16 num_cols, i16OfU16 num_rows⟩
          stdin_read stdout_write o.createConsole with
      | .error e => .error e
      | .ok con =>
        let size : winsize :=
          ⟨num_rows, num_cols, pixel_width, pixel_height⟩
        let inner : Inner := ⟨con, stdout_read, stdin_write, size⟩
        .ok (⟨inner⟩, ⟨inner⟩)

/-- Modelled from the spec: `CommandBuilder` lives in `super::cmdline`
(src/pty/win/cmdline.rs is not under src/); the spec says it
accumulates a program path, an argument list and environment overrides,
builder-style.  Strings are modelled as lists of code units. -/
structure CommandBuilder where
  program : List Nat
  args : List (List Nat)
  envs : List (List Nat × List Nat)
  deriving DecidableEq

/-- Modelled from the spec: `CommandBuilder::new` starts from a program
with no arguments and no environment overrides. -/
def CommandBuilder.new (program : List Nat) : CommandBuilder :=
  ⟨program, [], []⟩

/-- Modelled from the spec: `CommandBuilder::arg` appends one argument. -/
def CommandBuilder.arg (b : CommandBuilder) (a : List Nat) : CommandBuilder :=
  { b with args := b.args ++ [a] }

/-- Modelled from the spec: `CommandBuilder::env` accumulates one
environment override on the builder. -/
def CommandBuilder.env (b : CommandBuilder) (key val : List Nat) :
    CommandBuilder :=
  { b with envs := b.envs ++ [(key, val)] }

/-- `Command` (conpty.rs lines 31-37): the builder plus the optionally
bound PTY endpoints. -/
structure Command where
  builder : CommandBuilder
  input : Option OwnedHandle
  output : Option OwnedHandle
  hpc : Option Nat
  deriving DecidableEq

/-- `Command::new` (conpty.rs lines 40-47). -/
def Command.new (program : List Nat) : Command :=
  ⟨CommandBuilder.new program, none, none, none⟩

/-- `Command::arg` (conpty.rs lines 49-52): delegates to the builder. -/
def Command.arg (c : Command) (a : List Nat) : Command :=
  { c with builder := c.builder.arg a }

/-- `Command::env` (conpty.rs lines 63-70): delegates to the builder. -/
def Command.env (c : Command) (key val : List Nat) : Command :=
  { c with builder := c.builder.env key val }

/-- `Command::set_pty` (conpty.rs lines 72-77): installs the duplicated
pipe handles and the pseudo-console handle on the command. -/
def Command.set_pty (c : Command) (input output : OwnedHandle) (con : Nat) :
    Command :=
  { c with input := some input, output := some output, hpc := some con }

/-- One `InitializeProcThreadAttributeList` OS call as observed from
outside: whether a buffer was supplied (none = null pointer, some n = a
buffer of n bytes) and the attribute count asked for. -/
structure InitCall where
  buffer : Option Nat
  numAttributes : Nat
  deriving DecidableEq

/-- Outcomes of the attribute-list OS calls: the byte count written by
the sizing query, whether the in-place second init call succeeds (with
the OS error reported when it does not), and the same for
`UpdateProcThreadAttribute`. -/
structure AttrOracle where
  bytesRequired : Nat
  initOk : Bool
  initOsError : Int
  updateOk : Bool
  updateOsError : Int
  deriving DecidableEq

/-- `ProcThreadAttributeList` owns the attribute buffer; its contents
are maintained by the OS, so only the byte length is observable. -/
structure ProcThreadAttributeList where
  data : List Nat
  deriving DecidableEq

/-- `ProcThreadAttributeList::with_capacity` (conpty.rs lines 131-157):
first call `InitializeProcThreadAttributeList` with a null buffer to
learn the required byte count (the return value of that sizing call is
ignored by the code), allocate a buffer of exactly that many bytes,
then call it again on the buffer; a failure of the second call is
returned as an error carrying the OS error code.  The trace of the two
OS calls is returned next to the result. -/
def ProcThreadAttributeList.with_capacity (o : AttrOracle)
    (num_attributes : Nat) :
    Except CtError ProcThreadAttributeList × List InitCall :=
  let calls : List InitCall :=
    [⟨none, num_attributes⟩, ⟨some o.bytesRequired, num_attributes⟩]
  if o.initOk then (.ok ⟨List.replicate o.bytesRequired 0⟩, calls)
  else (.error (.attrListInitFailed o.initOsError), calls)

/-- `ProcThreadAttributeList::set_pty` (conpty.rs lines 163-181):
`UpdateProcThreadAttribute` with the pseudo-console attribute id; a
failure is returned as an error carrying the OS error code. -/
def ProcThreadAttributeList.set_pty (l : ProcThreadAttributeList)
    (o : AttrOracle) (con : Nat) : Except CtError Unit :=
  if o.updateOk then .ok ()
  else .error (.updateAttrFailed o.updateOsError)

/-- The argument vector of the one `CreateProcessW` invocation made by
`Command::spawn`, field for field; `none` stands for a null pointer. -/
structure CreateProcessArgs where
  lpApplicationName : List Nat
  lpCommandLine : List Nat
  lpProcessAttributes : Option Unit
  lpThreadAttributes : Option Unit
  bInheritHandles : Bool
  dwCreationFlags : Nat
  lpEnvironment : Option (List Nat)
  lpCurrentDirectory : Option (List Nat)
  attributeList : List Nat
  deriving DecidableEq

/-- Outcomes of the OS calls made by `Command::spawn`: the attribute
list calls, the `(exe, cmdline)` buffers produced by the external
`builder.cmdline()` collaborator (none = it failed), and the
`CreateProcessW` outcome with the handles it writes on success. -/
structure SpawnOracle where
  attr : AttrOracle
  cmdline : Option (List Nat × List Nat)
  createProcessOk : Bool
  createProcessOsError : Int
  hProcess : Nat
  hThread : Nat
  deriving DecidableEq

/-- How a call of `Command::spawn` ends: the panic of the
`self.hpc.as_ref().unwrap()` on an unbound PTY, an error return, or a
spawned `Child`. -/
inductive SpawnOutcome where
  | panicNoneUnwrap
  | failure (e : CtError)
  | success (child : Child)
  deriving DecidableEq

/-- A `Command::spawn` call with its observable effects: the outcome,
the `CreateProcessW` invocation when one was made, and the trace of
attribute-list init calls. -/
structure SpawnResult where
  outcome : SpawnOutcome
  osCall : Option CreateProcessArgs
  attrCalls : List InitCall
  deriving DecidableEq

/-- `Command::spawn` (conpty.rs lines 79-123): build a one-slot
attribute list, unwrap the bound pseudo-console handle and install it
with set_pty, build the command line, then call `CreateProcessW` with
null process/thread security attributes, no handle inheritance, the
EXTENDED_STARTUPINFO_PRESENT flag, a null environment block, a null
current directory, and the attribute list; a zero return is surfaced as
an error carrying the command line and the OS error. -/
def Command.spawn (cmd : Command) (o : SpawnOracle) : SpawnResult :=
  match ProcThreadAttributeList.with_capacity o.attr 1 with
  | (.error e, calls) => ⟨.failure e, none, calls⟩
  | (.ok attrs, calls) =>
    match cmd.hpc with
    | none => ⟨.panicNoneUnwrap, none, calls⟩
    | some hpc =>
      match attrs.set_pty o.attr hpc with
      | .error e => ⟨.failure e, none, calls⟩
      | .ok () =>
        match o.cmdline with
        | none => ⟨.failure .cmdlineFailed, none, calls⟩
        | some (exe, cl) =>
          let osArgs : CreateProcessArgs :=
            ⟨exe, cl, none, none, false, EXTENDED_STARTUPINFO_PRESENT,
              none, none, attrs.data⟩
          if o.createProcessOk then
            ⟨.success ⟨⟨o.hProcess⟩⟩, some osArgs, calls⟩
          else
            ⟨.failure (.createProcessFailed cl o.createProcessOsError),
              some osArgs, calls⟩

/-- Modelled from the spec: `OwnedHandle::try_clone`
(src/pty/win/ownedhandle.rs is not under src/) duplicates the handle,
yielding a new handle to the same OS object, or fails with an OS
error.  `osResult` is the outcome of the duplication OS call. -/
def OwnedHandle.try_clone (h : OwnedHandle) (osResult : Except Int Nat) :
    Except CtError OwnedHandle :=
  match osResult with
  | .ok newHandle => .ok ⟨newHandle⟩
  | .error e => .error (.tryCloneFailed e)

/-- Outcomes of the two handle-duplication calls made by
`SlavePty::spawn_command`. -/
structure CloneOracle where
  writableClone : Except Int Nat
  readableClone : Except Int Nat

/-- `SlavePty::spawn_command` (conpty.rs lines 364-374): lock the shared
state, duplicate the writable and readable pipe handles into the
command together with the pseudo-console handle, then spawn. -/
def SlavePty.spawn_command (sp : SlavePty) (cmd : Command)
    (co : CloneOracle) (o : SpawnOracle) : SpawnResult :=
  match sp.inner.writable.try_clone co.writableClone with
  | .error e => ⟨.failure e, none, []⟩
  | .ok w =>
    match sp.inner.readable.try_clone co.readableClone with
    | .error e => ⟨.failure e, none, []⟩
    | .ok r =>
      (cmd.set_pty w r sp.inner.con.con).spawn o

/-- The dynamically resolved pseudo-console function table; only its
identity matters here. -/
structure ConPtyFuncs where
  table : Nat
  deriving DecidableEq

/-- State of the process-wide lazily initialized `CONPTY` cell: never
touched, holding the resolved table, or poisoned by a failed first
initialization. -/
inductive ConptyCell where
  | uninit
  | ready (f : ConPtyFuncs)
  | poisoned
  deriving DecidableEq

/-- How one access to the `CONPTY` lazy static ends: the resolved table,
or a panic with a message. -/
inductive LazyOutcome where
  | ok (f : ConPtyFuncs)
  | panicked (msg : String)
  deriving DecidableEq

/-- The message passed to `.expect(...)` on the `ConPtyFuncs::open`
result (conpty.rs lines 254-256). -/
def conptyExpectMsg : String :=
  "this system does not support conpty.  Windows 10 October 2018 or newer is required"

/-- The message of the panic raised when a poisoned once-cell is
entered again. -/
def conptyPoisonMsg : String :=
  "Once instance has previously been poisoned"

/-- One access to the `CONPTY` lazy static (conpty.rs lines 253-257).
`openResult` is the outcome of `ConPtyFuncs::open(kernel32.dll)` (none =
the three functions could not be resolved); it is consulted only when
the cell is untouched.  On a first-access failure the `.expect` panics
and the cell is left poisoned; later accesses of a poisoned cell panic
without retrying; a cached table is returned without consulting the
loader again. -/
def conptyAccess (openResult : Option ConPtyFuncs) (cell : ConptyCell) :
    LazyOutcome × ConptyCell :=
  match cell with
  | .ready f => (.ok f, .ready f)
  | .poisoned => (.panicked conptyPoisonMsg, .poisoned)
  | .uninit =>
    match openResult with
    | some f => (.ok f, .ready f)
    | none => (.panicked conptyExpectMsg, .poisoned)

/-- C10: Child::try_wait() never returns Err: for every process state it
returns Ok, and a failure of the underlying OS status query is mapped to
Ok(None), indistinguishable to the caller from still-running. -/
theorem try_wait_never_err :
    (∀ (child : Child) (q : ExitCodeQuery), ∃ v, child.try_wait q = .ok v) ∧
    (∀ (child : Child) (e : Int), child.try_wait (.fail e) = .ok none) := by
  constructor
  · intro child q
    cases q with
    | ok status =>
        by_cases h : status = STILL_ACTIVE
        · exact ⟨none, by simp [Child.try_wait, h]⟩
        · exact ⟨some ⟨status⟩, by simp [Child.try_wait, h]⟩
    | fail e => exact ⟨none, rfl⟩
  · intro child e
    rfl

/-- C4 counterexample: at the concrete input where the OS status query
itself fails with error code 5, try_wait returns Ok(None) — the query
failure is mapped to the still-running answer rather than surfaced as an
error, and this input is not the still-active report, contradicting the
claimed equivalence. -/
theorem try_wait_fail_not_surfaced :
    Child.try_wait ⟨⟨3⟩⟩ (.fail 5) = .ok none ∧
    ExitCodeQuery.fail 5 ≠ ExitCodeQuery.ok STILL_ACTIVE := by
  exact ⟨rfl, by decide⟩

/-- C4 (amended): Child::try_wait returns Ok(None) iff the OS status
query reports the still-active sentinel or the query itself fails (a
query failure is mapped to Ok(None), not surfaced); when the query
succeeds with a non-sentinel status it returns that terminal ExitStatus;
it never returns Err. -/
theorem try_wait_characterization (child : Child) (q : ExitCodeQuery) :
    (child.try_wait q = .ok none ↔
        (q = .ok STILL_ACTIVE ∨ ∃ e, q = .fail e)) ∧
    (∀ status, q = .ok status → status ≠ STILL_ACTIVE →
        child.try_wait q = .ok (some ⟨status⟩)) ∧
    (∀ e, child.try_wait q ≠ .error e) := by
  refine ⟨?_, ?_, ?_⟩
  · cases q with
    | ok status =>
        by_cases h : status = STILL_ACTIVE
        · simp [Child.try_wait, h]
        · simp [Child.try_wait, h]
    | fail e => simp [Child.try_wait]
  · intro status hq h
    subst hq
    simp [Child.try_wait, h]
  · intro e
    cases q with
    | ok status =>
        by_cases h : status = STILL_ACTIVE
        · simp [Child.try_wait, h]
        · simp [Child.try_wait, h]
    | fail e2 => simp [Child.try_wait]

/-- C4 witness: the amended theorem applied at the concrete successful
query reporting status 0. -/
theorem try_wait_characterization_witness :
    Child.try_wait ⟨⟨3⟩⟩ (.ok 0) = .ok (some ⟨0⟩) :=
  (try_wait_characterization ⟨⟨3⟩⟩ (.ok 0)).2.1 0 rfl (by decide)

/-- C5: Child::wait returns an already-observed terminal status
immediately without blocking; otherwise it blocks and then returns the
ExitStatus from the final status query, failing exactly when that final
query fails. -/
theorem wait_behaviour (child : Child) (q1 q2 : ExitCodeQuery) :
    (∀ st, child.try_wait q1 = .ok (some st) →
        child.wait q1 q2 = ⟨.ok st, false⟩) ∧
    (child.try_wait q1 = .ok none →
        (child.wait q1 q2).blocked = true ∧
        (∀ s, q2 = .ok s → (child.wait q1 q2).result = .ok ⟨s⟩) ∧
        (∀ e, q2 = .fail e → (child.wait q1 q2).result = .error e)) := by
  constructor
  · intro st h
    simp [Child.wait, h]
  · intro h
    refine ⟨?_, ?_, ?_⟩
    · cases q2 with
      | ok s => simp [Child.wait, h]
      | fail e => simp [Child.wait, h]
    · intro s hq2
      subst hq2
      simp [Child.wait, h]
    · intro e hq2
      subst hq2
      simp [Child.wait, h]

/-- C5 witness: the theorem applied at a query that already reports exit
code 0 (immediate return, no blocking), and at a still-active first
query followed by a failing final query (blocks, surfaces the error). -/
theorem wait_behaviour_witness :
    Child.wait ⟨⟨3⟩⟩ (.ok 0) (.ok 9) = ⟨.ok ⟨0⟩, false⟩ ∧
    (Child.wait ⟨⟨3⟩⟩ (.ok STILL_ACTIVE) (.fail 7)).blocked = true ∧
    (Child.wait ⟨⟨3⟩⟩ (.ok STILL_ACTIVE) (.fail 7)).result = .error 7 :=
  ⟨(wait_behaviour ⟨⟨3⟩⟩ (.ok 0) (.ok 9)).1 ⟨0⟩ rfl,
   ((wait_behaviour ⟨⟨3⟩⟩ (.ok STILL_ACTIVE) (.fail 7)).2 rfl).1,
   ((wait_behaviour ⟨⟨3⟩⟩ (.ok STILL_ACTIVE) (.fail 7)).2 rfl).2.2 7 rfl⟩

/-- C6: Child::kill on a still-running process requests forced
termination (exit code 1) and delegates to wait, which returns that
terminal status; the returned status is non-zero, and a subsequent
try_wait on the post-kill process state returns the same terminal
status. -/
theorem kill_forced_termination (child : Child) (p : ProcState)
    (h : p = .running) :
    (child.kill p).1 = ⟨.ok ⟨1⟩, false⟩ ∧
    (⟨1⟩ : ExitStatus).status ≠ 0 ∧
    child.try_wait (GetExitCodeProcess (child.kill p).2) = .ok (some ⟨1⟩) := by
  subst h
  exact ⟨rfl, by decide, rfl⟩

/-- C6 witness: the theorem applied to a concrete child and the running
process state. -/
theorem kill_forced_termination_witness :
    (Child.kill ⟨⟨3⟩⟩ .running).1 = ⟨.ok ⟨1⟩, false⟩ ∧
    (⟨1⟩ : ExitStatus).status ≠ 0 ∧
    Child.try_wait ⟨⟨3⟩⟩ (GetExitCodeProcess (Child.kill ⟨⟨3⟩⟩ .running).2) =
      .ok (some ⟨1⟩) :=
  kill_forced_termination ⟨⟨3⟩⟩ .running rfl

/-- C1: whenever openpty(rows, cols, pixel_width, pixel_height)
succeeds for a valid size (rows>0, cols>0), get_size() on the returned
MasterPty returns a winsize whose four fields equal exactly the four
arguments passed to openpty. -/
theorem openpty_get_size (o : OpenptyOracle) (r c pw ph : Nat)
    (hr : 0 < r) (hc : 0 < c) (m : MasterPty) (s : SlavePty)
    (hok : openpty o r c pw ph = .ok (m, s)) :
    m.get_size = .ok ⟨r, c, pw, ph⟩ := by
  obtain ⟨p1, p2, cc⟩ := o
  cases p1 with
  | error e => simp [openpty, pipe] at hok
  | ok v1 =>
    obtain ⟨rd1, wr1⟩ := v1
    cases p2 with
    | error e => simp [openpty, pipe] at hok
    | ok v2 =>
      obtain ⟨rd2, wr2⟩ := v2
      by_cases h : cc.1 = S_OK
      · simp [openpty, pipe, PsuedoCon.new, h] at hok
        obtain ⟨hm, hs⟩ := hok
        subst hm
        simp [MasterPty.get_size]
      · simp [openpty, pipe, PsuedoCon.new, h] at hok

/-- C1 witness: the theorem applied at a concrete oracle on which every
OS call succeeds and the size 24x80 with 640x480 pixels. -/
theorem openpty_get_size_witness :
    MasterPty.get_size ⟨⟨⟨14⟩, ⟨12⟩, ⟨11⟩, ⟨24, 80, 640, 480⟩⟩⟩ =
      .ok ⟨24, 80, 640, 480⟩ :=
  openpty_get_size ⟨.ok (10, 11), .ok (12, 13), (0, 14)⟩ 24 80 640 480
    (by decide) (by decide) _ _ rfl

/-- C2: MasterPty::resize is all-or-nothing on the stored size: when the
underlying pseudo-console resize succeeds, resize returns Ok and a
subsequent get_size returns exactly the four new values; when it fails,
resize returns the error and the shared state, hence get_size, is left
exactly as before. -/
theorem resize_all_or_nothing (m : MasterPty) (osResize : Int)
    (r c pw ph : Nat) :
    (osResize = S_OK →
        (m.resize osResize r c pw ph).1 = .ok () ∧
        (m.resize osResize r c pw ph).2.get_size = .ok ⟨r, c, pw, ph⟩) ∧
    (osResize ≠ S_OK →
        (∃ e, (m.resize osResize r c pw ph).1 = .error e) ∧
        (m.resize osResize r c pw ph).2 = m) := by
  constructor
  · intro h
    constructor
    · simp [MasterPty.resize, Inner.resize, PsuedoCon.resize, h]
    · simp [MasterPty.resize, Inner.resize, PsuedoCon.resize,
        MasterPty.get_size, h]
  · intro h
    constructor
    · exact ⟨.resizePseudoConsoleFailed (i16OfU16 c) (i16OfU16 r) osResize,
        by simp [MasterPty.resize, Inner.resize, PsuedoCon.resize, h]⟩
    · simp [MasterPty.resize, Inner.resize, PsuedoCon.resize, h]

/-- C2 witness: the theorem applied to a concrete master, once with a
succeeding resize (HRESULT 0) and once with a failing one (HRESULT 1). -/
theorem resize_all_or_nothing_witness :
    ((MasterPty.resize ⟨⟨⟨14⟩, ⟨12⟩, ⟨11⟩, ⟨24, 80, 640, 480⟩⟩⟩
        0 30 90 1 2).1 = .ok () ∧
      (MasterPty.resize ⟨⟨⟨14⟩, ⟨12⟩, ⟨11⟩, ⟨24, 80, 640, 480⟩⟩⟩
        0 30 90 1 2).2.get_size = .ok ⟨30, 90, 1, 2⟩) ∧
    ((∃ e, (MasterPty.resize ⟨⟨⟨14⟩, ⟨12⟩, ⟨11⟩, ⟨24, 80, 640, 480⟩⟩⟩
        1 30 90 1 2).1 = .error e) ∧
      (MasterPty.resize ⟨⟨⟨14⟩, ⟨12⟩, ⟨11⟩, ⟨24, 80, 640, 480⟩⟩⟩
        1 30 90 1 2).2 = ⟨⟨⟨14⟩, ⟨12⟩, ⟨11⟩, ⟨24, 80, 640, 480⟩⟩⟩) :=
  ⟨(resize_all_or_nothing ⟨⟨⟨14⟩, ⟨12⟩, ⟨11⟩, ⟨24, 80, 640, 480⟩⟩⟩
      0 30 90 1 2).1 rfl,
   (resize_all_or_nothing ⟨⟨⟨14⟩, ⟨12⟩, ⟨11⟩, ⟨24, 80, 640, 480⟩⟩⟩
      1 30 90 1 2).2 (by decide)⟩

/-- C3: for every Command, however many env overrides were accumulated
on the builder, the CreateProcessW invocation made by spawn carries a
null environment block, so the overrides are never delivered to the
child. -/
theorem spawn_null_environment (cmd : Command)
    (ovs : List (List Nat × List Nat)) (o : SpawnOracle)
    (a : CreateProcessArgs)
    (hcall : ((ovs.foldl (fun c kv => c.env kv.1 kv.2) cmd).spawn o).osCall
        = some a) :
    a.lpEnvironment = none := by
  generalize (ovs.foldl (fun c kv => c.env kv.1 kv.2) cmd) = cmd2 at hcall
  unfold Command.spawn at hcall
  repeat' split at hcall
  all_goals simp_all
  all_goals simp [← hcall]

/-- C3 witness: the theorem applied to a concrete command carrying one
environment override, on an oracle where every OS call succeeds. -/
theorem spawn_null_environment_witness :
    (⟨[1], [2], none, none, false, EXTENDED_STARTUPINFO_PRESENT, none,
        none, List.replicate 16 0⟩ : CreateProcessArgs).lpEnvironment =
      none :=
  spawn_null_environment ⟨CommandBuilder.new [99], none, none, some 5⟩
    [([3], [4])] ⟨⟨16, true, 0, true, 0⟩, some ([1], [2]), true, 0, 7, 8⟩
    _ rfl

/-- C7: with_capacity performs the two-phase size-then-fill protocol
(first a sizing call with a null buffer, then an in-place init of a
buffer of exactly the queried byte count), and an init or set_pty
failure is returned as an error carrying the OS error code that aborts
the spawn attempt before any CreateProcessW call. -/
theorem attr_list_protocol (o : AttrOracle) (n : Nat) :
    ((ProcThreadAttributeList.with_capacity o n).2 =
        [⟨none, n⟩, ⟨some o.bytesRequired, n⟩]) ∧
    (o.initOk = true →
        ∃ l, (ProcThreadAttributeList.with_capacity o n).1 = .ok l ∧
          l.data.length = o.bytesRequired) ∧
    (o.initOk = false →
        (ProcThreadAttributeList.with_capacity o n).1 =
          .error (.attrListInitFailed o.initOsError)) ∧
    (o.updateOk = false → ∀ (l : ProcThreadAttributeList) (con : Nat),
        l.set_pty o con = .error (.updateAttrFailed o.updateOsError)) ∧
    (∀ (cmd : Command) (so : SpawnOracle), so.attr = o →
        o.initOk = false →
        (cmd.spawn so).outcome = .failure (.attrListInitFailed o.initOsError) ∧
        (cmd.spawn so).osCall = none) ∧
    (∀ (cmd : Command) (so : SpawnOracle) (hp : Nat), so.attr = o →
        cmd.hpc = some hp → o.initOk = true → o.updateOk = false →
        (cmd.spawn so).outcome = .failure (.updateAttrFailed o.updateOsError) ∧
        (cmd.spawn so).osCall = none) := by
  refine ⟨?_, ?_, ?_, ?_, ?_, ?_⟩
  · cases h : o.initOk <;>
      simp [ProcThreadAttributeList.with_capacity, h]
  · intro h
    exact ⟨⟨List.replicate o.bytesRequired 0⟩,
      by simp [ProcThreadAttributeList.with_capacity, h], by simp⟩
  · intro h
    simp [ProcThreadAttributeList.with_capacity, h]
  · intro h l con
    simp [ProcThreadAttributeList.set_pty, h]
  · intro cmd so hattr h
    subst hattr
    constructor <;>
      simp [Command.spawn, ProcThreadAttributeList.with_capacity, h]
  · intro cmd so hp hattr hcmd hinit hupd
    subst hattr
    constructor <;>
      simp [Command.spawn, ProcThreadAttributeList.with_capacity,
        ProcThreadAttributeList.set_pty, hcmd, hinit, hupd]

/-- C7 witness: the theorem applied at two concrete oracles, one whose
in-place init fails with OS error 9 and one whose attribute update
fails with OS error 11, plus the succeeding size-then-fill run that
allocates exactly the 16 queried bytes. -/
theorem attr_list_protocol_witness :
    ((ProcThreadAttributeList.with_capacity ⟨16, true, 0, false, 11⟩ 1).2 =
        [⟨none, 1⟩, ⟨some 16, 1⟩]) ∧
    (∃ l, (ProcThreadAttributeList.with_capacity
          ⟨16, true, 0, false, 11⟩ 1).1 = .ok l ∧ l.data.length = 16) ∧
    ((ProcThreadAttributeList.with_capacity ⟨16, false, 9, true, 0⟩ 1).1 =
        .error (.attrListInitFailed 9)) ∧
    (ProcThreadAttributeList.set_pty ⟨List.replicate 16 0⟩
        ⟨16, true, 0, false, 11⟩ 5 = .error (.updateAttrFailed 11)) ∧
    ((Command.spawn ⟨CommandBuilder.new [99], none, none, some 5⟩
          ⟨⟨16, false, 9, true, 0⟩, some ([1], [2]), true, 0, 7, 8⟩).outcome =
        .failure (.attrListInitFailed 9)) ∧
    ((Command.spawn ⟨CommandBuilder.new [99], none, none, some 5⟩
          ⟨⟨16, true, 0, false, 11⟩, some ([1], [2]), true, 0, 7, 8⟩).outcome =
        .failure (.updateAttrFailed 11)) :=
  ⟨(attr_list_protocol ⟨16, true, 0, false, 11⟩ 1).1,
   (attr_list_protocol ⟨16, true, 0, false, 11⟩ 1).2.1 rfl,
   (attr_list_protocol ⟨16, false, 9, true, 0⟩ 1).2.2.1 rfl,
   (attr_list_protocol ⟨16, true, 0, false, 11⟩ 1).2.2.2.1 rfl
     ⟨List.replicate 16 0⟩ 5,
   ((attr_list_protocol ⟨16, false, 9, true, 0⟩ 1).2.2.2.2.1
     ⟨CommandBuilder.new [99], none, none, some 5⟩
     ⟨⟨16, false, 9, true, 0⟩, some ([1], [2]), true, 0, 7, 8⟩ rfl rfl).1,
   ((attr_list_protocol ⟨16, true, 0, false, 11⟩ 1).2.2.2.2.2
     ⟨CommandBuilder.new [99], none, none, some 5⟩
     ⟨⟨16, true, 0, false, 11⟩, some ([1], [2]), true, 0, 7, 8⟩ 5 rfl rfl
     rfl rfl).1⟩

/-- C8 counterexample: at the concrete input where the function
resolution fails on first use, the access to the CONPTY lazy static
panics (the expect message) and poisons the cell — the failure is a
crash, not a returned PlatformUnsupportedError value, contradicting the
claim that it is reported to the caller as a returned error. -/
theorem conpty_failure_is_panic :
    conptyAccess none .uninit = (.panicked conptyExpectMsg, .poisoned) :=
  rfl

/-- C8 (amended): the three pseudo-console functions are resolved
lazily on first use and the result is cached process-wide (a later
access returns the cached table without consulting the loader); when
the OS does not support the facility, the first access panics via
expect and every later access panics as well (the poisoned cell is
latched) — the failure is a crash, not a returned error. -/
theorem conpty_lazy_cached_panic :
    (∀ f, conptyAccess (some f) .uninit = (.ok f, .ready f)) ∧
    (∀ f openResult2, conptyAccess openResult2 (.ready f) =
        (.ok f, .ready f)) ∧
    (conptyAccess none .uninit = (.panicked conptyExpectMsg, .poisoned)) ∧
    (∀ openResult2, conptyAccess openResult2 .poisoned =
        (.panicked conptyPoisonMsg, .poisoned)) :=
  ⟨fun f => rfl, fun f r2 => rfl, rfl, fun r2 => rfl⟩

/-- Any command whose pseudo-console field is bound cannot reach the
panic branch of the unwrap in spawn, whatever the OS calls do. -/
theorem spawn_hpc_some_no_panic (cmd : Command) (o : SpawnOracle)
    (hp : Nat) (h : cmd.hpc = some hp) :
    (cmd.spawn o).outcome ≠ .panicNoneUnwrap := by
  rcases o with ⟨⟨bytes, initOk, initErr, updOk, updErr⟩, cmdl, cpOk, cpErr, hP, hT⟩
  cases initOk
  · simp [Command.spawn, ProcThreadAttributeList.with_capacity, h]
  · cases updOk
    · simp [Command.spawn, ProcThreadAttributeList.with_capacity,
        ProcThreadAttributeList.set_pty, h]
    · rcases cmdl with _ | ⟨exe, cl⟩
      · simp [Command.spawn, ProcThreadAttributeList.with_capacity,
          ProcThreadAttributeList.set_pty, h]
      · cases cpOk <;>
          simp [Command.spawn, ProcThreadAttributeList.with_capacity,
            ProcThreadAttributeList.set_pty, h]

/-- C9: every Command that reaches spawn through SlavePty::spawn_command
has had its pseudo-console handle installed by set_pty first, so the
unwrap in spawn never hits its panic branch there; a Command spawned
directly without a bound PTY (once the attribute list init has
succeeded and the unwrap is reached) panics at that unwrap. -/
theorem spawn_pty_unwrap (sp : SlavePty) (cmd : Command)
    (co : CloneOracle) (o : SpawnOracle) :
    (sp.spawn_command cmd co o).outcome ≠ .panicNoneUnwrap ∧
    (∀ cmd2 : Command, cmd2.hpc = none → o.attr.initOk = true →
        (cmd2.spawn o).outcome = .panicNoneUnwrap) := by
  constructor
  · rcases co with ⟨wc, rc⟩
    rcases wc with we | wh
    · simp [SlavePty.spawn_command, OwnedHandle.try_clone]
    · rcases rc with re | rh
      · simp [SlavePty.spawn_command, OwnedHandle.try_clone]
      · have hdef : SlavePty.spawn_command sp cmd ⟨.ok wh, .ok rh⟩ o =
            (cmd.set_pty ⟨wh⟩ ⟨rh⟩ sp.inner.con.con).spawn o := rfl
        rw [hdef]
        exact spawn_hpc_some_no_panic _ o sp.inner.con.con rfl
  · intro cmd2 hnone hinit
    simp [Command.spawn, ProcThreadAttributeList.with_capacity, hnone,
      hinit]

/-- C9 witness: spawn_command on a concrete slave on which the clones
succeed never panics, while a direct spawn of a command that was never
bound to a PTY hits the panic branch of the unwrap. -/
theorem spawn_pty_unwrap_witness :
    (SlavePty.spawn_command ⟨⟨⟨14⟩, ⟨12⟩, ⟨11⟩, ⟨24, 80, 640, 480⟩⟩⟩
        (Command.new [99]) ⟨.ok 21, .ok 22⟩
        ⟨⟨16, true, 0, true, 0⟩, some ([1], [2]), true, 0, 7, 8⟩).outcome ≠
      .panicNoneUnwrap ∧
    (Command.spawn (Command.new [99])
        ⟨⟨16, true, 0, true, 0⟩, some ([1], [2]), true, 0, 7, 8⟩).outcome =
      .panicNoneUnwrap :=
  ⟨(spawn_pty_unwrap ⟨⟨⟨14⟩, ⟨12⟩, ⟨11⟩, ⟨24, 80, 640, 480⟩⟩⟩
      (Command.new [99]) ⟨.ok 21, .ok 22⟩
      ⟨⟨16, true, 0, true, 0⟩, some ([1], [2]), true, 0, 7, 8⟩).1,
   (spawn_pty_unwrap ⟨⟨⟨14⟩, ⟨12⟩, ⟨11⟩, ⟨24, 80, 640, 480⟩⟩⟩
      (Command.new [99]) ⟨.ok 21, .ok 22⟩
      ⟨⟨16, true, 0, true, 0⟩, some ([1], [2]), true, 0, 7, 8⟩).2
     (Command.new [99]) rfl rfl⟩

end ConPty
